import Mathlib

/-!
# yumi_hw_rapid.h : joint-state handler, robot interface and hardware adapter

A shallow embedding of `src/yumi_hw/include/yumi_hw/yumi_hw_rapid.h`.

* C++ objects are records, member functions are functions from the object (and
  its arguments) to the new object and the returned value.
* `float` is an abstract type `α`: the code only stores and copies such
  values, so no arithmetic on them is needed.  The element type of the command
  arrays of the base class `YumiHW` (declared in `yumi_hw.h`) and of
  `period.toSec()` is a second abstract type `β`; the product `x * y` on it
  and the conversion into `float` performed by an assignment are the
  parameters `mul` and `toFloat`.
* The mutex operations `data_buffer_mutex.lock()` / `unlock()` have no effect
  on a single thread of control and are left out.
-/

namespace Yumi

/-! ## Data model -/

/-- The constant `#define N_YUMI_JOINTS 14`. -/
abbrev N_YUMI_JOINTS : Nat := 14

/-- A C array `float x[N_YUMI_JOINTS]`. -/
abbrev JointArray (α : Type) : Type := Fin N_YUMI_JOINTS → α

/-- The two values of `industrial::simple_message::ReplyTypes` the handler uses. -/
inductive ReplyType where
  | SUCCESS
  | FAILURE
  deriving DecidableEq, Repr

/-- What the handler reads from an `industrial::joint_message::JointMessage`
(external library): `getMessageType()` and, through `getJoints().getJoint(i, v)`,
the decoded joint value at index `i`, `none` when that call returns `false`
(the output argument is then left untouched). -/
structure JointMessage (α : Type) where
  getMessageType : Int
  getJoint : Nat → Option α

/-- An inbound `industrial::simple_message::SimpleMessage`, seen through the
external codec: the result of `joint_msg.init(in)` and the state of `joint_msg`
after that call. -/
structure SimpleMessage (α : Type) where
  initOk : Bool
  joint_msg : JointMessage α

/-- The call `joint_msg.init(in)` on a fresh `JointMessage joint_msg`: the
returned flag and the resulting `joint_msg`. -/
def JointMessage.init {α : Type} (inMsg : SimpleMessage α) : Bool × JointMessage α :=
  (inMsg.initOk, inMsg.joint_msg)

/-- A reply message built by `joint_msg.toReply(reply, code)`: it is tagged
with the joint message it answers and carries the reply code. -/
structure Reply (α : Type) where
  request : JointMessage α
  code : ReplyType

/-- The call `joint_msg.toReply(reply, code)`. -/
def JointMessage.toReply {α : Type} (jm : JointMessage α) (code : ReplyType) : Reply α :=
  { request := jm, code := code }

/-- The connection `industrial::smpl_msg_connection::SmplMsgConnection`
(external): the address it was initialised with, the number of `makeConnect()`
calls, and the replies handed to `sendMsg`, oldest first. -/
structure SmplMsgConnection (α : Type) where
  ip : String
  port : Int
  connects : Nat
  sent : List (Reply α)

/-- The call `connection->sendMsg(reply)`. -/
def SmplMsgConnection.sendMsg {α : Type} (c : SmplMsgConnection α) (r : Reply α) :
    SmplMsgConnection α :=
  { c with sent := c.sent ++ [r] }

/-- The call `connection->makeConnect()`. -/
def SmplMsgConnection.makeConnect {α : Type} (c : SmplMsgConnection α) : SmplMsgConnection α :=
  { c with connects := c.connects + 1 }

/-- The data members of `class YumiJointStateHandler`. -/
structure YumiJointStateHandler (α : Type) where
  joint_positions : JointArray α
  joint_command : JointArray α
  first_iteration : Bool

/-! ## YumiJointStateHandler -/

/-- Member `getJointStates(jnts)`: `memcpy(&jnts, &joint_positions, ...)`; the
value is the content of `jnts` after the call. -/
def YumiJointStateHandler.getJointStates {α : Type} (h : YumiJointStateHandler α) :
    JointArray α :=
  h.joint_positions

/-- Member `setJointCommands(jnts)`: `memcpy(&joint_command, &jnts, ...)`. -/
def YumiJointStateHandler.setJointCommands {α : Type} (h : YumiJointStateHandler α)
    (jnts : JointArray α) : YumiJointStateHandler α :=
  { h with joint_command := jnts }

/-- Member `init(connection)`: `first_iteration = true`, then the inherited
`MessageHandler::init` (external), whose result the caller discards. -/
def YumiJointStateHandler.init {α : Type} (h : YumiJointStateHandler α) :
    YumiJointStateHandler α :=
  { h with first_iteration := true }

/-- One pass of the body of the loop `for (int i = 0; i < N_YUMI_JOINTS; i++)`
of `internalCB`, on the pair (`joint_positions`, `rtn`). -/
def decodeStep {α : Type} (jm : JointMessage α) (st : JointArray α × Bool)
    (i : Fin N_YUMI_JOINTS) : JointArray α × Bool :=
  match jm.getJoint i.val with
  | some joint_value_from_msg => (Function.update st.1 i joint_value_from_msg, st.2)
  | none => (st.1, false)

/-- The loop `for (int i = 0; i < N_YUMI_JOINTS; i++)` of `internalCB`, started
with `rtn = true`. -/
def decodeLoop {α : Type} (jm : JointMessage α) (joint_positions : JointArray α) :
    JointArray α × Bool :=
  (List.finRange N_YUMI_JOINTS).foldl (decodeStep jm) (joint_positions, true)

/-- The result of `internalCB`: the returned flag, the handler afterwards and
the connection afterwards. -/
structure CBResult (α : Type) where
  rtn : Bool
  handler : YumiJointStateHandler α
  conn : SmplMsgConnection α

/-- Member `internalCB(in)`.  `SERVICE_REQUEST` is the value of
`industrial::simple_message::CommTypes::SERVICE_REQUEST` (external header);
`conn` is the connection returned by `getConnection()`. -/
def YumiJointStateHandler.internalCB {α : Type} (SERVICE_REQUEST : Int)
    (h : YumiJointStateHandler α) (conn : SmplMsgConnection α) (inMsg : SimpleMessage α) :
    CBResult α :=
  let (ok, joint_msg) := JointMessage.init inMsg
  if !ok then
    { rtn := false, handler := h, conn := conn }
  else
    let (positions, rtn) := decodeLoop joint_msg h.joint_positions
    let h1 : YumiJointStateHandler α := { h with joint_positions := positions }
    let conn1 :=
      if SERVICE_REQUEST = joint_msg.getMessageType then
        conn.sendMsg (joint_msg.toReply (if rtn then ReplyType.SUCCESS else ReplyType.FAILURE))
      else conn
    let h2 : YumiJointStateHandler α :=
      if h1.first_iteration then
        { h1 with joint_command := h1.joint_positions, first_iteration := false }
      else h1
    { rtn := rtn, handler := h2, conn := conn1 }

/-- The handler callback applied to the inbound frames in arrival order (the
pump thread calls it once per received frame and only logs the returned flag). -/
def processFrames {α : Type} (SERVICE_REQUEST : Int) (h : YumiJointStateHandler α)
    (conn : SmplMsgConnection α) (frames : List (SimpleMessage α)) :
    YumiJointStateHandler α × SmplMsgConnection α :=
  frames.foldl
    (fun st f =>
      let r := YumiJointStateHandler.internalCB SERVICE_REQUEST st.1 st.2 f
      (r.handler, r.conn))
    (h, conn)

/-- All of a frame decodes: `joint_msg.init(in)` succeeds and so does
`getJoint(i, _)` for each of the 14 indices. -/
def DecodesOk {α : Type} (inMsg : SimpleMessage α) : Prop :=
  (JointMessage.init inMsg).1 = true ∧
    ∀ i : Fin N_YUMI_JOINTS, ((JointMessage.init inMsg).2.getJoint i.val).isSome = true

instance {α : Type} (inMsg : SimpleMessage α) : Decidable (DecodesOk inMsg) := by
  unfold DecodesOk; infer_instance

/-! ## YumiRapidInterface -/

/-- The data members of `class YumiRapidInterface`.  `connection_` is `none`
for the `NULL` pointer and holds the state of `default_tcp_connection_` once
the pointer is set; `manager_handlers` counts the handlers registered with
`manager_`, `commThreads` the pump threads spawned by `startThreads`. -/
structure YumiRapidInterface (α : Type) where
  connection_ : Option (SmplMsgConnection α)
  manager_handlers : Nat
  js_handler : YumiJointStateHandler α
  stopComm_ : Bool
  commThreads : Nat

/-- Member `getCurrentJointStates(joints)`: `js_handler.getJointStates(joints)`. -/
def YumiRapidInterface.getCurrentJointStates {α : Type} (ri : YumiRapidInterface α) :
    JointArray α :=
  ri.js_handler.getJointStates

/-- Member `setJointTargets(joints)`: `js_handler.setJointCommands(joints)`. -/
def YumiRapidInterface.setJointTargets {α : Type} (ri : YumiRapidInterface α)
    (joints : JointArray α) : YumiRapidInterface α :=
  { ri with js_handler := ri.js_handler.setJointCommands joints }

/-- Member `init(ip, port)`: `default_tcp_connection_.init(ip, port)` sets the
client up anew for that address, `connection_` is pointed at it and
`makeConnect()` is called; then the manager and the handler are initialised,
the handler is registered and `stopComm_` is cleared. -/
def YumiRapidInterface.init {α : Type} (ri : YumiRapidInterface α) (ip : String) (port : Int) :
    YumiRapidInterface α :=
  let default_tcp_connection_ : SmplMsgConnection α :=
    { ip := ip, port := port, connects := 0, sent := [] }
  { connection_ := some default_tcp_connection_.makeConnect
    manager_handlers := ri.manager_handlers + 1
    js_handler := ri.js_handler.init
    stopComm_ := false
    commThreads := ri.commThreads }

/-- Member `startThreads()`: spawn the pump thread unless `stopComm_` is set. -/
def YumiRapidInterface.startThreads {α : Type} (ri : YumiRapidInterface α) :
    YumiRapidInterface α :=
  if !ri.stopComm_ then { ri with commThreads := ri.commThreads + 1 } else ri

/-! ## YumiHWRapid -/

/-- Modelled from the spec: the control strategies of the base class `YumiHW`
(`yumi_hw.h` is not among the sources).  The spec names a position and a
velocity strategy and "any other strategy"; `write` names `JOINT_POSITION`,
`JOINT_VELOCITY` and, commented out, `JOINT_EFFORT`. -/
inductive ControlStrategy where
  | JOINT_POSITION
  | JOINT_VELOCITY
  | JOINT_EFFORT
  deriving DecidableEq, Repr

/-- The members of the base class `YumiHW` (declared in `yumi_hw.h`) that
`YumiHWRapid::write` reads: the joint count, the value returned by
`getControlStrategy()` and the two command arrays, indexed by joint. -/
structure YumiHW (β : Type) where
  n_joints_ : Nat
  controlStrategy : ControlStrategy
  joint_position_command_ : Nat → β
  joint_velocity_command_ : Nat → β

/-- Inherited member `getControlStrategy()`. -/
def YumiHW.getControlStrategy {β : Type} (hw : YumiHW β) : ControlStrategy :=
  hw.controlStrategy

/-- The data members of `class YumiHWRapid` on top of its base `YumiHW`. -/
structure YumiHWRapid (α β : Type) extends YumiHW β where
  robot_interface : YumiRapidInterface α
  isInited : Bool
  isSetup : Bool
  newJntPosition : JointArray α
  readJntPosition : JointArray α
  ip : String
  port : Int

/-- The store `a[j] = v` into a `float [N_YUMI_JOINTS]`; a store past the end
of the array (undefined in C++) is dropped. -/
def storeAt {α : Type} (a : JointArray α) (j : Nat) (v : α) : JointArray α :=
  if h : j < N_YUMI_JOINTS then Function.update a ⟨j, h⟩ v else a

/-- The loop `for (int j = 0; j < n_joints_; j++) newJntPosition[j] = value j`. -/
def fillLoop {α : Type} (n_joints_ : Nat) (value : Nat → α) (newJntPosition : JointArray α) :
    JointArray α :=
  (List.range n_joints_).foldl (fun buf j => storeAt buf j (value j)) newJntPosition

/-- Member `setup(ip_, port_)`. -/
def YumiHWRapid.setup {α β : Type} (s : YumiHWRapid α β) (ip_ : String) (port_ : Int) :
    YumiHWRapid α β :=
  { s with ip := ip_, port := port_, isSetup := true }

/-- Member `init()`: the returned flag and the adapter afterwards. -/
def YumiHWRapid.init {α β : Type} (s : YumiHWRapid α β) : Bool × YumiHWRapid α β :=
  if s.isInited then (false, s)
  else if !s.isSetup then (false, s)
  else
    let ri := (s.robot_interface.init s.ip s.port).startThreads
    (true, { s with robot_interface := ri, isInited := true })

/-- Member `write(time, period)`.  `enforceLimits` is the inherited member of
`YumiHW` (it acts on the base-class members only), `period` stands for
`period.toSec()`, `mul` for the product of two such values and `toFloat` for
the conversion done by the assignment into `float newJntPosition[j]`. -/
def YumiHWRapid.write {α β : Type} (enforceLimits : β → YumiHW β → YumiHW β)
    (mul : β → β → β) (toFloat : β → α) (s : YumiHWRapid α β) (period : β) :
    YumiHWRapid α β :=
  if !s.isInited then s
  else
    let hw := enforceLimits period s.toYumiHW
    let newJntPosition :=
      match hw.getControlStrategy with
      | ControlStrategy.JOINT_POSITION =>
          fillLoop hw.n_joints_ (fun j => toFloat (hw.joint_position_command_ j)) s.newJntPosition
      | ControlStrategy.JOINT_VELOCITY =>
          fillLoop hw.n_joints_ (fun j => toFloat (mul (hw.joint_velocity_command_ j) period))
            s.newJntPosition
      | _ => s.newJntPosition
    { s with
      toYumiHW := hw
      newJntPosition := newJntPosition
      robot_interface := s.robot_interface.setJointTargets newJntPosition }

/-- The commanded vector held by the bridge: the handler member `joint_command`. -/
def YumiHWRapid.commanded {α β : Type} (s : YumiHWRapid α β) : JointArray α :=
  s.robot_interface.js_handler.joint_command

/-! ## Concrete inputs

Joint values are integers here, so that every statement about these inputs is
evaluated by the kernel. -/

/-- The array with `0` in all 14 entries. -/
def zeros : JointArray Int := fun _ => 0

/-- A handler with both arrays zero and the bootstrap flag clear. -/
def idleHandler : YumiJointStateHandler Int :=
  { joint_positions := zeros, joint_command := zeros, first_iteration := false }

/-- An open connection on which nothing has been sent. -/
def quietConn : SmplMsgConnection Int :=
  { ip := "192.168.125.1", port := 11002, connects := 1, sent := [] }

/-- A frame all of whose 14 joints decode to `v`; it asks for no reply. -/
def goodFrame (v : Int) : SimpleMessage Int :=
  { initOk := true, joint_msg := { getMessageType := 10, getJoint := fun _ => some v } }

/-- A frame that asks for a reply and all of whose 14 joints decode to `v`. -/
def requestFrame (v : Int) : SimpleMessage Int :=
  { initOk := true, joint_msg := { getMessageType := 2, getJoint := fun _ => some v } }

/-- A frame whose joint message initialises, whose joint 0 decodes to `5` and
whose other 13 joints fail to decode; it asks for a reply. -/
def tornFrame : SimpleMessage Int :=
  { initOk := true
    joint_msg := { getMessageType := 2, getJoint := fun i => if i = 0 then some 5 else none } }

/-- A frame that asks for a reply and whose joint message fails to initialise. -/
def brokenFrame : SimpleMessage Int :=
  { initOk := false, joint_msg := { getMessageType := 2, getJoint := fun _ => none } }

/-- The limit enforcement that leaves the base-class members as they are. -/
def keepLimits {β : Type} (_period : β) (hw : YumiHW β) : YumiHW β := hw

/-- A bridge whose handler has been bootstrapped by one frame of sevens. -/
def bootedInterface : YumiRapidInterface Int :=
  { connection_ := some quietConn
    manager_handlers := 1
    js_handler := (processFrames 2 idleHandler.init quietConn [goodFrame 7]).1
    stopComm_ := false
    commThreads := 1 }

/-- An initialised adapter with 14 joints, the given strategy, position
targets `3`, velocity targets `2`, a zero `newJntPosition` buffer and the
bootstrapped bridge. -/
def bootedAdapter (strategy : ControlStrategy) : YumiHWRapid Int Int :=
  { n_joints_ := 14
    controlStrategy := strategy
    joint_position_command_ := fun _ => 3
    joint_velocity_command_ := fun _ => 2
    robot_interface := bootedInterface
    isInited := true
    isSetup := true
    newJntPosition := zeros
    readJntPosition := zeros
    ip := "192.168.125.1"
    port := 11002 }

/-- A constructed adapter on which neither `setup` nor `init` has run. -/
def freshAdapter : YumiHWRapid Int Int :=
  { bootedAdapter ControlStrategy.JOINT_POSITION with
    isInited := false
    isSetup := false
    robot_interface :=
      { connection_ := none, manager_handlers := 0, js_handler := idleHandler,
        stopComm_ := true, commThreads := 0 } }

/-- The velocity scenario of the spec over the rationals: an initialised
adapter under `JOINT_VELOCITY` with target velocity `[1, 0, ..., 0]`. -/
def velocityAdapter : YumiHWRapid ℚ ℚ :=
  { n_joints_ := 14
    controlStrategy := ControlStrategy.JOINT_VELOCITY
    joint_position_command_ := fun _ => 0
    joint_velocity_command_ := fun j => if j = 0 then 1 else 0
    robot_interface :=
      { connection_ := none, manager_handlers := 1
        js_handler :=
          { joint_positions := fun _ => 5, joint_command := fun _ => 5, first_iteration := false }
        stopComm_ := false, commThreads := 1 }
    isInited := true
    isSetup := true
    newJntPosition := fun _ => 9
    readJntPosition := fun _ => 5
    ip := "192.168.125.1"
    port := 11002 }

/-! ## The decode loop -/

section DecodeLoop

variable {α : Type}

theorem decodeStep_fst (jm : JointMessage α) (st : JointArray α × Bool)
    (i k : Fin N_YUMI_JOINTS) :
    (decodeStep jm st i).1 k = if k = i then (jm.getJoint k.val).getD (st.1 k) else st.1 k := by
  unfold decodeStep
  by_cases hk : k = i
  · subst hk
    cases hg : jm.getJoint k.val <;> simp
  · cases hg : jm.getJoint i.val <;> simp [hk]

theorem decodeStep_snd (jm : JointMessage α) (st : JointArray α × Bool)
    (i : Fin N_YUMI_JOINTS) :
    (decodeStep jm st i).2 = (st.2 && (jm.getJoint i.val).isSome) := by
  unfold decodeStep
  cases hg : jm.getJoint i.val <;> simp

theorem foldl_decodeStep_fst (jm : JointMessage α) (l : List (Fin N_YUMI_JOINTS))
    (st : JointArray α × Bool) (k : Fin N_YUMI_JOINTS) :
    (l.foldl (decodeStep jm) st).1 k =
      if k ∈ l then (jm.getJoint k.val).getD (st.1 k) else st.1 k := by
  induction l generalizing st with
  | nil => simp
  | cons i t ih =>
    rw [List.foldl_cons, ih, decodeStep_fst]
    by_cases hki : k = i
    · subst hki
      cases hg : jm.getJoint k.val <;> simp
    · simp [hki]

theorem foldl_decodeStep_snd (jm : JointMessage α) (l : List (Fin N_YUMI_JOINTS))
    (st : JointArray α × Bool) :
    (l.foldl (decodeStep jm) st).2 = (st.2 && l.all fun i => (jm.getJoint i.val).isSome) := by
  induction l generalizing st with
  | nil => simp
  | cons i t ih =>
    rw [List.foldl_cons, ih, decodeStep_snd, List.all_cons, Bool.and_assoc]

/-- After the loop, entry `k` of `joint_positions` holds the decoded value when
`getJoint(k, _)` succeeded and its previous content when it failed. -/
theorem decodeLoop_fst (jm : JointMessage α) (p : JointArray α) (k : Fin N_YUMI_JOINTS) :
    (decodeLoop jm p).1 k = (jm.getJoint k.val).getD (p k) := by
  unfold decodeLoop
  rw [foldl_decodeStep_fst]
  simp [List.mem_finRange]

/-- After the loop, `rtn` is `true` exactly when all 14 `getJoint` calls succeeded. -/
theorem decodeLoop_snd (jm : JointMessage α) (p : JointArray α) :
    (decodeLoop jm p).2 = true ↔ ∀ i : Fin N_YUMI_JOINTS, (jm.getJoint i.val).isSome = true := by
  unfold decodeLoop
  rw [foldl_decodeStep_snd]
  simp [List.all_eq_true, List.mem_finRange]

end DecodeLoop

/-! ## The handler callback -/

section Handler

variable {α : Type}

theorem internalCB_init_failed (SR : Int) (h : YumiJointStateHandler α)
    (conn : SmplMsgConnection α) (inMsg : SimpleMessage α) (hf : inMsg.initOk = false) :
    YumiJointStateHandler.internalCB SR h conn inMsg =
      { rtn := false, handler := h, conn := conn } := by
  simp [YumiJointStateHandler.internalCB, JointMessage.init, hf]

theorem internalCB_rtn (SR : Int) (h : YumiJointStateHandler α)
    (conn : SmplMsgConnection α) (inMsg : SimpleMessage α) (hok : inMsg.initOk = true) :
    (YumiJointStateHandler.internalCB SR h conn inMsg).rtn =
      (decodeLoop inMsg.joint_msg h.joint_positions).2 := by
  simp [YumiJointStateHandler.internalCB, JointMessage.init, hok]

theorem internalCB_positions (SR : Int) (h : YumiJointStateHandler α)
    (conn : SmplMsgConnection α) (inMsg : SimpleMessage α) (hok : inMsg.initOk = true) :
    (YumiJointStateHandler.internalCB SR h conn inMsg).handler.joint_positions =
      (decodeLoop inMsg.joint_msg h.joint_positions).1 := by
  simp only [YumiJointStateHandler.internalCB, JointMessage.init, hok]
  cases h.first_iteration <;> simp

theorem internalCB_command (SR : Int) (h : YumiJointStateHandler α)
    (conn : SmplMsgConnection α) (inMsg : SimpleMessage α) (hok : inMsg.initOk = true) :
    (YumiJointStateHandler.internalCB SR h conn inMsg).handler.joint_command =
      if h.first_iteration then (decodeLoop inMsg.joint_msg h.joint_positions).1
      else h.joint_command := by
  simp only [YumiJointStateHandler.internalCB, JointMessage.init, hok]
  cases h.first_iteration <;> simp

theorem internalCB_first_iteration (SR : Int) (h : YumiJointStateHandler α)
    (conn : SmplMsgConnection α) (inMsg : SimpleMessage α) (hok : inMsg.initOk = true) :
    (YumiJointStateHandler.internalCB SR h conn inMsg).handler.first_iteration = false := by
  simp only [YumiJointStateHandler.internalCB, JointMessage.init, hok]
  cases hfi : h.first_iteration <;> simp [hfi]

theorem internalCB_conn (SR : Int) (h : YumiJointStateHandler α)
    (conn : SmplMsgConnection α) (inMsg : SimpleMessage α) (hok : inMsg.initOk = true) :
    (YumiJointStateHandler.internalCB SR h conn inMsg).conn =
      if SR = inMsg.joint_msg.getMessageType then
        conn.sendMsg (inMsg.joint_msg.toReply
          (if (decodeLoop inMsg.joint_msg h.joint_positions).2 then ReplyType.SUCCESS
            else ReplyType.FAILURE))
      else conn := by
  simp [YumiJointStateHandler.internalCB, JointMessage.init, hok]

theorem decodesOk_iff (inMsg : SimpleMessage α) :
    DecodesOk inMsg ↔ inMsg.initOk = true ∧
      ∀ i : Fin N_YUMI_JOINTS, (inMsg.joint_msg.getJoint i.val).isSome = true := by
  simp [DecodesOk, JointMessage.init]

theorem decodeLoop_snd_of_ok (inMsg : SimpleMessage α) (p : JointArray α)
    (hok : inMsg.initOk = true) :
    (decodeLoop inMsg.joint_msg p).2 = true ↔ DecodesOk inMsg := by
  rw [decodeLoop_snd, decodesOk_iff]
  simp [hok]

theorem processFrames_nil (SR : Int) (h : YumiJointStateHandler α) (conn : SmplMsgConnection α) :
    processFrames SR h conn [] = (h, conn) := rfl

theorem processFrames_cons (SR : Int) (h : YumiJointStateHandler α) (conn : SmplMsgConnection α)
    (f : SimpleMessage α) (rest : List (SimpleMessage α)) :
    processFrames SR h conn (f :: rest) =
      processFrames SR (YumiJointStateHandler.internalCB SR h conn f).handler
        (YumiJointStateHandler.internalCB SR h conn f).conn rest := rfl

theorem processFrames_append (SR : Int) (h : YumiJointStateHandler α) (conn : SmplMsgConnection α)
    (l₁ l₂ : List (SimpleMessage α)) :
    processFrames SR h conn (l₁ ++ l₂) =
      processFrames SR (processFrames SR h conn l₁).1 (processFrames SR h conn l₁).2 l₂ := by
  simp [processFrames, List.foldl_append]

/-- Frames whose joint message fails to initialise leave handler and connection alone. -/
theorem processFrames_init_failed (SR : Int) (h : YumiJointStateHandler α)
    (conn : SmplMsgConnection α) (l : List (SimpleMessage α))
    (hl : ∀ g ∈ l, g.initOk = false) : processFrames SR h conn l = (h, conn) := by
  induction l with
  | nil => rfl
  | cons g t ih =>
    rw [processFrames_cons, internalCB_init_failed SR h conn g (hl g (List.mem_cons_self g t))]
    exact ih fun g' hg' => hl g' (List.mem_cons_of_mem g hg')

/-- With the bootstrap flag clear no frame changes `joint_command` or sets the flag. -/
theorem internalCB_flag_clear (SR : Int) (h : YumiJointStateHandler α)
    (conn : SmplMsgConnection α) (inMsg : SimpleMessage α) (hfi : h.first_iteration = false) :
    (YumiJointStateHandler.internalCB SR h conn inMsg).handler.joint_command = h.joint_command ∧
      (YumiJointStateHandler.internalCB SR h conn inMsg).handler.first_iteration = false := by
  cases hok : inMsg.initOk
  · rw [internalCB_init_failed SR h conn inMsg hok]
    exact ⟨rfl, hfi⟩
  · rw [internalCB_command SR h conn inMsg hok, internalCB_first_iteration SR h conn inMsg hok]
    simp [hfi]

theorem processFrames_flag_clear (SR : Int) (h : YumiJointStateHandler α)
    (conn : SmplMsgConnection α) (l : List (SimpleMessage α)) (hfi : h.first_iteration = false) :
    (processFrames SR h conn l).1.joint_command = h.joint_command ∧
      (processFrames SR h conn l).1.first_iteration = false := by
  induction l generalizing h conn with
  | nil => exact ⟨rfl, hfi⟩
  | cons g t ih =>
    rw [processFrames_cons]
    have hstep := internalCB_flag_clear SR h conn g hfi
    have hrest := ih (YumiJointStateHandler.internalCB SR h conn g).handler
      (YumiJointStateHandler.internalCB SR h conn g).conn hstep.2
    exact ⟨hrest.1.trans hstep.1, hrest.2⟩

end Handler

/-! ## Claims about the handler -/

section HandlerClaims

variable {α : Type}

/-- C1: for a sequence of frames that all decode, the measured vector read
after frame `i` has gone through `internalCB` and before frame `i + 1` does
(through `getJointStates`, and through `getCurrentJointStates` of any bridge
holding that handler) is entry by entry the 14 values of frame `i`. -/
theorem C1_measured_is_frame_i (SR : Int) (h : YumiJointStateHandler α)
    (conn : SmplMsgConnection α) (frames : List (SimpleMessage α))
    (hall : ∀ f ∈ frames, DecodesOk f) (i : Nat) (hi : i < frames.length)
    (ri : YumiRapidInterface α)
    (hri : ri.js_handler = (processFrames SR h conn (frames.take (i + 1))).1)
    (k : Fin N_YUMI_JOINTS) :
    (frames.get ⟨i, hi⟩).joint_msg.getJoint k.val =
        some ((processFrames SR h conn (frames.take (i + 1))).1.getJointStates k) ∧
      (frames.get ⟨i, hi⟩).joint_msg.getJoint k.val = some (ri.getCurrentJointStates k) := by
  have hok := (decodesOk_iff _).1 (hall _ (List.get_mem frames i hi))
  have htake : frames.take (i + 1) = frames.take i ++ [frames.get ⟨i, hi⟩] := by
    rw [← List.take_concat_get frames i hi, List.concat_eq_append]
    rfl
  have hval : (frames.get ⟨i, hi⟩).joint_msg.getJoint k.val =
      some ((processFrames SR h conn (frames.take (i + 1))).1.getJointStates k) := by
    rw [htake, processFrames_append, processFrames_cons, processFrames_nil]
    unfold YumiJointStateHandler.getJointStates
    rw [internalCB_positions SR _ _ _ hok.1, decodeLoop_fst]
    have hk := hok.2 k
    cases hg : (frames.get ⟨i, hi⟩).joint_msg.getJoint k.val with
    | none => rw [hg] at hk; simp at hk
    | some v => simp
  refine ⟨hval, ?_⟩
  unfold YumiRapidInterface.getCurrentJointStates
  rw [hri]
  exact hval

/-- C1 at a concrete input: after two decoded frames (sevens, then eights) the
bootstrapped bridge of the samples, given the resulting handler, reads eights. -/
theorem C1_measured_is_frame_i_witness :
    (∀ f ∈ [goodFrame 7, goodFrame 8], DecodesOk f) ∧
      ∀ k : Fin N_YUMI_JOINTS,
        some 8 = some (({ bootedInterface with
          js_handler := (processFrames 2 idleHandler.init quietConn
            ([goodFrame 7, goodFrame 8].take (1 + 1))).1 }
            : YumiRapidInterface Int).getCurrentJointStates k) := by
  have hall : ∀ f ∈ [goodFrame 7, goodFrame 8], DecodesOk f := by decide
  exact ⟨hall, fun k =>
    (C1_measured_is_frame_i 2 idleHandler.init quietConn [goodFrame 7, goodFrame 8] hall 1
      (by decide) _ rfl k).2⟩

/-- C2 as stated fails: from a freshly initialised handler (flag set), a frame
that initialises but decodes only joint 0 already triggers the bootstrap, so
after the first frame that decodes all 14 joints the commanded vector differs
from the measured vector. -/
theorem C2_first_decoded_frame_counterexample :
    idleHandler.init.first_iteration = true ∧
      ¬ DecodesOk tornFrame ∧
      DecodesOk (goodFrame 7) ∧
      (processFrames 2 idleHandler.init quietConn [tornFrame]).1.first_iteration = false ∧
      (processFrames 2 idleHandler.init quietConn [tornFrame, goodFrame 7]).1.joint_command ≠
        (processFrames 2 idleHandler.init quietConn [tornFrame, goodFrame 7]).1.joint_positions := by
  decide

/-- C2, amended: from a freshly initialised handler, frames whose joint message
fails to initialise change nothing; the first frame `f` whose joint message
initialises makes the commanded vector equal to the measured vector and clears
the flag, whether or not all 14 joints decode (when they do, both vectors are
the 14 values of `f`); every later frame leaves the commanded vector and the
cleared flag as they are, so the copy happens once. -/
theorem C2_bootstrap_on_first_initialised_frame (SR : Int) (h : YumiJointStateHandler α)
    (conn : SmplMsgConnection α) (pre post : List (SimpleMessage α)) (f : SimpleMessage α)
    (hpre : ∀ g ∈ pre, g.initOk = false) (hf : f.initOk = true) :
    (processFrames SR h.init conn pre).1 = h.init ∧
      (processFrames SR h.init conn (pre ++ [f])).1.joint_command =
        (processFrames SR h.init conn (pre ++ [f])).1.joint_positions ∧
      (processFrames SR h.init conn (pre ++ [f])).1.first_iteration = false ∧
      (DecodesOk f → ∀ k : Fin N_YUMI_JOINTS, f.joint_msg.getJoint k.val =
        some ((processFrames SR h.init conn (pre ++ [f])).1.joint_command k)) ∧
      (processFrames SR h.init conn (pre ++ [f] ++ post)).1.joint_command =
        (processFrames SR h.init conn (pre ++ [f])).1.joint_command ∧
      (processFrames SR h.init conn (pre ++ [f] ++ post)).1.first_iteration = false := by
  have hp := processFrames_init_failed SR h.init conn pre hpre
  have hstep : processFrames SR h.init conn (pre ++ [f]) =
      ((YumiJointStateHandler.internalCB SR h.init conn f).handler,
        (YumiJointStateHandler.internalCB SR h.init conn f).conn) := by
    rw [processFrames_append, hp, processFrames_cons, processFrames_nil]
  have hflag : h.init.first_iteration = true := rfl
  have hcmd := internalCB_command SR h.init conn f hf
  have hpos := internalCB_positions SR h.init conn f hf
  have hclr := internalCB_first_iteration SR h.init conn f hf
  rw [hflag, if_pos rfl] at hcmd
  have htail := processFrames_flag_clear SR (processFrames SR h.init conn (pre ++ [f])).1
    (processFrames SR h.init conn (pre ++ [f])).2 post (by rw [hstep]; exact hclr)
  refine ⟨by rw [hp], ?_, ?_, ?_, ?_, ?_⟩
  · rw [hstep]
    exact hcmd.trans hpos.symm
  · rw [hstep]
    exact hclr
  · intro hdec k
    rw [hstep]
    show _ = some ((YumiJointStateHandler.internalCB SR h.init conn f).handler.joint_command k)
    rw [hcmd, decodeLoop_fst]
    have hk := ((decodesOk_iff f).1 hdec).2 k
    cases hg : f.joint_msg.getJoint k.val with
    | none => rw [hg] at hk; simp at hk
    | some v => simp
  · rw [processFrames_append SR h.init conn (pre ++ [f]) post]
    exact htail.1
  · rw [processFrames_append SR h.init conn (pre ++ [f]) post]
    exact htail.2

/-- C2, amended, at a concrete input: a frame that fails to initialise, then
the torn frame, then a decoded frame of sevens. -/
theorem C2_bootstrap_on_first_initialised_frame_witness :
    (∀ g ∈ [brokenFrame], g.initOk = false) ∧ tornFrame.initOk = true ∧
      (processFrames 2 idleHandler.init quietConn ([brokenFrame] ++ [tornFrame])).1.joint_command =
        (processFrames 2 idleHandler.init quietConn
          ([brokenFrame] ++ [tornFrame])).1.joint_positions ∧
      (processFrames 2 idleHandler.init quietConn
          ([brokenFrame] ++ [tornFrame] ++ [goodFrame 7])).1.joint_command =
        (processFrames 2 idleHandler.init quietConn ([brokenFrame] ++ [tornFrame])).1.joint_command :=
  have hpre : ∀ g ∈ [brokenFrame], g.initOk = false := by decide
  have hthm := C2_bootstrap_on_first_initialised_frame 2 idleHandler quietConn [brokenFrame]
    [goodFrame 7] tornFrame hpre rfl
  ⟨hpre, rfl, hthm.2.1, hthm.2.2.2.2.1⟩

end HandlerClaims

section ReplyClaims

variable {α : Type}

/-- C3 as stated fails: a frame in which 13 of the 14 joints fail to decode
still overwrites the measured entry of the joint that did decode, and with the
bootstrap flag set it also overwrites the commanded vector. -/
theorem C3_decode_failure_counterexample :
    ¬ DecodesOk tornFrame ∧
      (YumiJointStateHandler.internalCB 2 idleHandler quietConn tornFrame).handler.joint_positions ≠
        idleHandler.joint_positions ∧
      (YumiJointStateHandler.internalCB 2 idleHandler.init quietConn tornFrame).handler.joint_command
        ≠ idleHandler.init.joint_command := by
  decide

/-- C3, amended: a frame that does not decode makes `internalCB` return
`false`.  When its joint message fails to initialise, the measured and the
commanded vector are left as they were.  When the joint message initialises
and some joint fails to decode, the frame is applied joint by joint: a
measured entry keeps its value where the decode failed and takes the decoded
value elsewhere; the commanded vector is left alone when the bootstrap flag is
clear and becomes a copy of the updated measured vector when it is set. -/
theorem C3_decode_failure_effect (SR : Int) (h : YumiJointStateHandler α)
    (conn : SmplMsgConnection α) (inMsg : SimpleMessage α) (hbad : ¬ DecodesOk inMsg) :
    (YumiJointStateHandler.internalCB SR h conn inMsg).rtn = false ∧
      (inMsg.initOk = false →
        (YumiJointStateHandler.internalCB SR h conn inMsg).handler.joint_positions =
            h.joint_positions ∧
          (YumiJointStateHandler.internalCB SR h conn inMsg).handler.joint_command =
            h.joint_command) ∧
      (inMsg.initOk = true →
        (∀ k : Fin N_YUMI_JOINTS, inMsg.joint_msg.getJoint k.val = none →
          (YumiJointStateHandler.internalCB SR h conn inMsg).handler.joint_positions k =
            h.joint_positions k) ∧
        (∀ (k : Fin N_YUMI_JOINTS) (v : α), inMsg.joint_msg.getJoint k.val = some v →
          (YumiJointStateHandler.internalCB SR h conn inMsg).handler.joint_positions k = v) ∧
        (h.first_iteration = false →
          (YumiJointStateHandler.internalCB SR h conn inMsg).handler.joint_command =
            h.joint_command) ∧
        (h.first_iteration = true →
          (YumiJointStateHandler.internalCB SR h conn inMsg).handler.joint_command =
            (YumiJointStateHandler.internalCB SR h conn inMsg).handler.joint_positions)) := by
  refine ⟨?_, ?_, ?_⟩
  · cases hok : inMsg.initOk
    · rw [internalCB_init_failed SR h conn inMsg hok]
    · rw [internalCB_rtn SR h conn inMsg hok]
      cases hr : (decodeLoop inMsg.joint_msg h.joint_positions).2
      · rfl
      · exact absurd ((decodeLoop_snd_of_ok inMsg h.joint_positions hok).1 hr) hbad
  · intro hok
    rw [internalCB_init_failed SR h conn inMsg hok]
    exact ⟨rfl, rfl⟩
  · intro hok
    have hpos := internalCB_positions SR h conn inMsg hok
    have hcmd := internalCB_command SR h conn inMsg hok
    refine ⟨?_, ?_, ?_, ?_⟩
    · intro k hk
      rw [hpos, decodeLoop_fst, hk]
      rfl
    · intro k v hk
      rw [hpos, decodeLoop_fst, hk]
      rfl
    · intro hfi
      rw [hcmd, hfi]
      rfl
    · intro hfi
      rw [hcmd, hpos, hfi]
      rfl

/-- C3, amended, at a concrete input: the torn frame on the idle handler. -/
theorem C3_decode_failure_effect_witness :
    ¬ DecodesOk tornFrame ∧
      (YumiJointStateHandler.internalCB 2 idleHandler quietConn tornFrame).rtn = false ∧
      (YumiJointStateHandler.internalCB 2 idleHandler quietConn tornFrame).handler.joint_positions 0
        = 5 ∧
      (YumiJointStateHandler.internalCB 2 idleHandler quietConn tornFrame).handler.joint_positions 1
        = idleHandler.joint_positions 1 :=
  have hbad : ¬ DecodesOk tornFrame := by decide
  have hthm := C3_decode_failure_effect 2 idleHandler quietConn tornFrame hbad
  ⟨hbad, hthm.1, (hthm.2.2 rfl).2.1 0 5 rfl, (hthm.2.2 rfl).1 1 rfl⟩

/-- C4 as stated fails: a frame of message type `SERVICE_REQUEST` whose joint
message fails to initialise gets no reply at all; `internalCB` returns `false`
with the connection untouched. -/
theorem C4_reply_counterexample :
    brokenFrame.joint_msg.getMessageType = 2 ∧
      ¬ DecodesOk brokenFrame ∧
      (YumiJointStateHandler.internalCB 2 idleHandler quietConn brokenFrame).conn.sent.length = 0 ∧
      (YumiJointStateHandler.internalCB 2 idleHandler quietConn brokenFrame).rtn = false := by
  decide

/-- C4, amended: for a frame whose joint message initialises and whose message
type is `SERVICE_REQUEST`, `internalCB` sends exactly one reply, `SUCCESS` when
all 14 joints decoded and `FAILURE` otherwise, and it returns `true` exactly in
the first case; for a frame that initialises with another message type nothing
is sent; for a frame whose joint message fails to initialise nothing is sent,
whatever its message type, and `false` is returned. -/
theorem C4_reply_contract (SR : Int) (h : YumiJointStateHandler α)
    (conn : SmplMsgConnection α) (inMsg : SimpleMessage α) :
    (inMsg.initOk = true → SR = inMsg.joint_msg.getMessageType →
        (YumiJointStateHandler.internalCB SR h conn inMsg).conn.sent =
          conn.sent ++ [inMsg.joint_msg.toReply
            (if DecodesOk inMsg then ReplyType.SUCCESS else ReplyType.FAILURE)]) ∧
      (inMsg.initOk = true → SR ≠ inMsg.joint_msg.getMessageType →
        (YumiJointStateHandler.internalCB SR h conn inMsg).conn = conn) ∧
      (inMsg.initOk = true →
        ((YumiJointStateHandler.internalCB SR h conn inMsg).rtn = true ↔ DecodesOk inMsg)) ∧
      (inMsg.initOk = false →
        (YumiJointStateHandler.internalCB SR h conn inMsg).conn = conn ∧
          (YumiJointStateHandler.internalCB SR h conn inMsg).rtn = false) := by
  refine ⟨?_, ?_, ?_, ?_⟩
  · intro hok hreq
    rw [internalCB_conn SR h conn inMsg hok, if_pos hreq]
    by_cases hdec : DecodesOk inMsg
    · rw [if_pos hdec, (decodeLoop_snd_of_ok inMsg h.joint_positions hok).2 hdec]
      rfl
    · have hr : (decodeLoop inMsg.joint_msg h.joint_positions).2 = false := by
        cases hr : (decodeLoop inMsg.joint_msg h.joint_positions).2
        · rfl
        · exact absurd ((decodeLoop_snd_of_ok inMsg h.joint_positions hok).1 hr) hdec
      rw [if_neg hdec, hr]
      rfl
  · intro hok hreq
    rw [internalCB_conn SR h conn inMsg hok, if_neg hreq]
  · intro hok
    rw [internalCB_rtn SR h conn inMsg hok]
    exact decodeLoop_snd_of_ok inMsg h.joint_positions hok
  · intro hok
    rw [internalCB_init_failed SR h conn inMsg hok]
    exact ⟨rfl, rfl⟩

end ReplyClaims

/-! ## The adapter -/

section Adapter

variable {α β : Type}

theorem storeAt_apply (a : JointArray α) (j : Nat) (v : α) (k : Fin N_YUMI_JOINTS) :
    storeAt a j v k = if k.val = j then v else a k := by
  unfold storeAt
  by_cases hj : j < N_YUMI_JOINTS
  · rw [dif_pos hj]
    by_cases hk : k.val = j
    · have hk' : k = ⟨j, hj⟩ := Fin.ext hk
      rw [if_pos hk, hk', Function.update_same]
    · have hk' : k ≠ ⟨j, hj⟩ := fun e => hk (by rw [e])
      rw [if_neg hk, Function.update_noteq hk']
  · rw [dif_neg hj]
    have hk : k.val ≠ j := fun e => hj (e ▸ k.isLt)
    rw [if_neg hk]

/-- After the loop, entry `k` holds `value k` when `k < n_joints_` and its
previous content otherwise. -/
theorem fillLoop_apply (n : Nat) (value : Nat → α) (buf : JointArray α)
    (k : Fin N_YUMI_JOINTS) :
    fillLoop n value buf k = if k.val < n then value k.val else buf k := by
  unfold fillLoop
  induction n with
  | zero => simp
  | succ n ih =>
    rw [List.range_succ, List.foldl_append, List.foldl_cons, List.foldl_nil, storeAt_apply, ih]
    by_cases hk : k.val = n
    · simp [hk]
    · by_cases hlt : k.val < n
      · simp [hk, hlt, Nat.lt_succ_of_lt hlt]
      · have : ¬ k.val < n + 1 := fun h => hk (Nat.eq_of_lt_succ_of_not_lt h hlt)
        simp [hk, hlt, this]

theorem fillLoop_all (value : Nat → α) (buf : JointArray α) (k : Fin N_YUMI_JOINTS) :
    fillLoop N_YUMI_JOINTS value buf k = value k.val := by
  rw [fillLoop_apply, if_pos k.isLt]

theorem write_not_inited (enforceLimits : β → YumiHW β → YumiHW β) (mul : β → β → β)
    (toFloat : β → α) (s : YumiHWRapid α β) (period : β) (hi : s.isInited = false) :
    YumiHWRapid.write enforceLimits mul toFloat s period = s := by
  simp [YumiHWRapid.write, hi]

theorem write_commanded (enforceLimits : β → YumiHW β → YumiHW β) (mul : β → β → β)
    (toFloat : β → α) (s : YumiHWRapid α β) (period : β) (hi : s.isInited = true) :
    (YumiHWRapid.write enforceLimits mul toFloat s period).commanded =
      (YumiHWRapid.write enforceLimits mul toFloat s period).newJntPosition := by
  simp [YumiHWRapid.write, hi, YumiHWRapid.commanded, YumiRapidInterface.setJointTargets,
    YumiJointStateHandler.setJointCommands]

theorem write_newJntPosition (enforceLimits : β → YumiHW β → YumiHW β) (mul : β → β → β)
    (toFloat : β → α) (s : YumiHWRapid α β) (period : β) (hi : s.isInited = true) :
    (YumiHWRapid.write enforceLimits mul toFloat s period).newJntPosition =
      match (enforceLimits period s.toYumiHW).getControlStrategy with
      | ControlStrategy.JOINT_POSITION =>
          fillLoop (enforceLimits period s.toYumiHW).n_joints_
            (fun j => toFloat ((enforceLimits period s.toYumiHW).joint_position_command_ j))
            s.newJntPosition
      | ControlStrategy.JOINT_VELOCITY =>
          fillLoop (enforceLimits period s.toYumiHW).n_joints_
            (fun j => toFloat (mul ((enforceLimits period s.toYumiHW).joint_velocity_command_ j)
              period))
            s.newJntPosition
      | _ => s.newJntPosition := by
  simp [YumiHWRapid.write, hi]

/-- An adapter that is already initialised refuses `init()` and is left as it was. -/
theorem init_of_inited (t : YumiHWRapid α β) (ht : t.isInited = true) : t.init = (false, t) := by
  unfold YumiHWRapid.init
  rw [if_pos ht]

end Adapter

/-! ## Claims about the adapter -/

section AdapterClaims

variable {α β : Type}

/-- C5: under `JOINT_VELOCITY` one `write()` on an initialised adapter with 14
joints sets every commanded entry `j` to `v[j] * dt` (stored as `float`), where
`v` is the velocity target as left by limit enforcement; nothing of the
previous commanded, measured or buffered values enters, so two adapters with
the same base-class members end with the same commanded vector. -/
theorem C5_velocity_not_accumulated (enforceLimits : β → YumiHW β → YumiHW β)
    (mul : β → β → β) (toFloat : β → α) (s : YumiHWRapid α β) (period : β) (hw : YumiHW β)
    (hi : s.isInited = true) (hlim : enforceLimits period s.toYumiHW = hw)
    (hstrat : hw.getControlStrategy = ControlStrategy.JOINT_VELOCITY)
    (hn : hw.n_joints_ = N_YUMI_JOINTS) :
    (∀ j : Fin N_YUMI_JOINTS,
        (YumiHWRapid.write enforceLimits mul toFloat s period).commanded j =
          toFloat (mul (hw.joint_velocity_command_ j.val) period)) ∧
      ∀ s' : YumiHWRapid α β, s'.isInited = true → s'.toYumiHW = s.toYumiHW →
        (YumiHWRapid.write enforceLimits mul toFloat s' period).commanded =
          (YumiHWRapid.write enforceLimits mul toFloat s period).commanded := by
  have key : ∀ t : YumiHWRapid α β, t.isInited = true → t.toYumiHW = s.toYumiHW →
      ∀ j : Fin N_YUMI_JOINTS,
        (YumiHWRapid.write enforceLimits mul toFloat t period).commanded j =
          toFloat (mul (hw.joint_velocity_command_ j.val) period) := by
    intro t ht hbase j
    rw [write_commanded enforceLimits mul toFloat t period ht,
      write_newJntPosition enforceLimits mul toFloat t period ht, hbase, hlim, hstrat]
    show fillLoop hw.n_joints_ _ _ j = _
    rw [hn, fillLoop_all]
  refine ⟨key s hi rfl, ?_⟩
  intro s' hi' hbase
  funext j
  rw [key s' hi' hbase j, key s hi rfl j]

/-- C5 at the scenario of the spec, over the rationals: `dt = 0.01` and target
velocity `[1, 0, ..., 0]` give `commanded[0] = 0.01` and `0` elsewhere, although
the commanded vector and the buffer held other values before. -/
theorem C5_velocity_not_accumulated_witness :
    velocityAdapter.isInited = true ∧
      (YumiHWRapid.write keepLimits (fun x y : ℚ => x * y) id velocityAdapter
        (1 / 100)).commanded 0 = 1 / 100 ∧
      ∀ j : Fin N_YUMI_JOINTS, j ≠ 0 →
        (YumiHWRapid.write keepLimits (fun x y : ℚ => x * y) id velocityAdapter
          (1 / 100)).commanded j = 0 := by
  have hthm := (C5_velocity_not_accumulated keepLimits (fun x y : ℚ => x * y) id
    velocityAdapter (1 / 100) velocityAdapter.toYumiHW rfl rfl rfl rfl).1
  refine ⟨rfl, ?_, ?_⟩
  · rw [hthm 0]
    simp [velocityAdapter]
  · intro j hj
    have hv : j.val ≠ 0 := fun e => hj (Fin.ext e)
    rw [hthm j]
    simp [velocityAdapter, hv]

/-- C6: under `JOINT_POSITION` one `write()` on an initialised adapter with 14
joints makes every commanded entry `j` the position target `p[j]` as left by
limit enforcement (stored as `float`), whatever the commanded vector and the
buffer held before. -/
theorem C6_position_pass_through (enforceLimits : β → YumiHW β → YumiHW β)
    (mul : β → β → β) (toFloat : β → α) (s : YumiHWRapid α β) (period : β) (hw : YumiHW β)
    (hi : s.isInited = true) (hlim : enforceLimits period s.toYumiHW = hw)
    (hstrat : hw.getControlStrategy = ControlStrategy.JOINT_POSITION)
    (hn : hw.n_joints_ = N_YUMI_JOINTS) (j : Fin N_YUMI_JOINTS) :
    (YumiHWRapid.write enforceLimits mul toFloat s period).commanded j =
      toFloat (hw.joint_position_command_ j.val) := by
  rw [write_commanded enforceLimits mul toFloat s period hi,
    write_newJntPosition enforceLimits mul toFloat s period hi, hlim, hstrat]
  show fillLoop hw.n_joints_ _ _ j = _
  rw [hn, fillLoop_all]

/-- C6 at a concrete input: position targets `3` replace the bootstrapped
sevens in all 14 entries. -/
theorem C6_position_pass_through_witness :
    (bootedAdapter ControlStrategy.JOINT_POSITION).commanded = (fun _ => 7) ∧
      ∀ j : Fin N_YUMI_JOINTS,
        (YumiHWRapid.write keepLimits (fun x y : Int => x * y) id
          (bootedAdapter ControlStrategy.JOINT_POSITION) 1).commanded j = 3 :=
  ⟨by decide, fun j =>
    C6_position_pass_through keepLimits (fun x y : Int => x * y) id
      (bootedAdapter ControlStrategy.JOINT_POSITION) 1
      (bootedAdapter ControlStrategy.JOINT_POSITION).toYumiHW rfl rfl rfl rfl j⟩

/-- C7 as stated fails: on an initialised adapter whose bridge was bootstrapped
to sevens, a `write()` under `JOINT_EFFORT` replaces the commanded vector by
the zero content of `newJntPosition`. -/
theorem C7_other_strategy_counterexample :
    (bootedAdapter ControlStrategy.JOINT_EFFORT).isInited = true ∧
      (bootedAdapter ControlStrategy.JOINT_EFFORT).commanded = (fun _ => 7) ∧
      (YumiHWRapid.write keepLimits (fun x y : Int => x * y) id
        (bootedAdapter ControlStrategy.JOINT_EFFORT) 1).commanded = (fun _ => 0) ∧
      (YumiHWRapid.write keepLimits (fun x y : Int => x * y) id
        (bootedAdapter ControlStrategy.JOINT_EFFORT) 1).commanded ≠
          (bootedAdapter ControlStrategy.JOINT_EFFORT).commanded := by
  decide

/-- C7, amended: under a strategy other than `JOINT_POSITION` and
`JOINT_VELOCITY` one `write()` on an initialised adapter leaves the buffer
`newJntPosition` as it was and makes the commanded vector a copy of it; the
commanded vector is therefore unchanged whenever it already equalled that
buffer, as it does after an earlier `write()`. -/
theorem C7_other_strategy_pushes_buffer (enforceLimits : β → YumiHW β → YumiHW β)
    (mul : β → β → β) (toFloat : β → α) (s : YumiHWRapid α β) (period : β)
    (hi : s.isInited = true)
    (hpos : (enforceLimits period s.toYumiHW).getControlStrategy ≠
      ControlStrategy.JOINT_POSITION)
    (hvel : (enforceLimits period s.toYumiHW).getControlStrategy ≠
      ControlStrategy.JOINT_VELOCITY) :
    (YumiHWRapid.write enforceLimits mul toFloat s period).newJntPosition = s.newJntPosition ∧
      (YumiHWRapid.write enforceLimits mul toFloat s period).commanded = s.newJntPosition ∧
      (s.commanded = s.newJntPosition →
        (YumiHWRapid.write enforceLimits mul toFloat s period).commanded = s.commanded) := by
  have hbuf : (YumiHWRapid.write enforceLimits mul toFloat s period).newJntPosition =
      s.newJntPosition := by
    rw [write_newJntPosition enforceLimits mul toFloat s period hi]
    cases hc : (enforceLimits period s.toYumiHW).getControlStrategy with
    | JOINT_POSITION => exact absurd hc hpos
    | JOINT_VELOCITY => exact absurd hc hvel
    | JOINT_EFFORT => rfl
  have hcmd := write_commanded enforceLimits mul toFloat s period hi
  exact ⟨hbuf, hcmd.trans hbuf, fun heq => (hcmd.trans hbuf).trans heq.symm⟩

/-- C7, amended, at a concrete input: the bootstrapped adapter under
`JOINT_EFFORT` ends with the zero buffer as commanded vector. -/
theorem C7_other_strategy_pushes_buffer_witness :
    (bootedAdapter ControlStrategy.JOINT_EFFORT).isInited = true ∧
      (YumiHWRapid.write keepLimits (fun x y : Int => x * y) id
        (bootedAdapter ControlStrategy.JOINT_EFFORT) 1).commanded = zeros :=
  ⟨rfl, (C7_other_strategy_pushes_buffer keepLimits (fun x y : Int => x * y) id
    (bootedAdapter ControlStrategy.JOINT_EFFORT) 1 rfl (by decide) (by decide)).2.1⟩

/-- C8: `init()` returns `false` and leaves the whole adapter as it was (the
connection is not opened, no pump thread is started, `isInited` keeps its
value) when `setup()` has not run or `init()` has already succeeded; it
returns `true` exactly when `isSetup` is set and `isInited` is not, and then
it sets `isInited`, opens the connection once and starts one pump thread.  So
`init()` fails on a constructed adapter, succeeds right after `setup()`, and
fails without effect when repeated. -/
theorem C8_init_preconditions (s : YumiHWRapid α β) :
    ((s.isInited = true ∨ s.isSetup = false) → s.init = (false, s)) ∧
      (s.init.1 = true ↔ s.isSetup = true ∧ s.isInited = false) ∧
      (s.isSetup = true ∧ s.isInited = false →
        s.init.2.isInited = true ∧
          (s.init.2.robot_interface.connection_.map fun c => c.connects) = some 1 ∧
          s.init.2.robot_interface.commThreads = s.robot_interface.commThreads + 1 ∧
          s.init.2.robot_interface.js_handler.first_iteration = true) ∧
      (∀ (ip_ : String) (port_ : Int), s.isInited = false → (s.setup ip_ port_).init.1 = true) ∧
      (s.init.1 = true → s.init.2.init = (false, s.init.2)) := by
  have hfail : (s.isInited = true ∨ s.isSetup = false) → s.init = (false, s) := by
    intro hcase
    cases hI : s.isInited
    · cases hcase with
      | inl h1 => rw [hI] at h1; cases h1
      | inr h2 => simp [YumiHWRapid.init, hI, h2]
    · simp [YumiHWRapid.init, hI]
  have hiff : s.init.1 = true ↔ s.isSetup = true ∧ s.isInited = false := by
    cases hI : s.isInited <;> cases hS : s.isSetup <;> simp [YumiHWRapid.init, hI, hS]
  have hsucc : s.isSetup = true ∧ s.isInited = false → s.init.2.isInited = true := by
    intro hcase
    simp [YumiHWRapid.init, hcase.1, hcase.2]
  refine ⟨hfail, hiff, ?_, ?_, ?_⟩
  · intro hcase
    simp [YumiHWRapid.init, hcase.1, hcase.2, YumiRapidInterface.init,
      YumiRapidInterface.startThreads, SmplMsgConnection.makeConnect,
      YumiJointStateHandler.init]
  · intro ip_ port_ hI
    simp [YumiHWRapid.init, YumiHWRapid.setup, hI]
  · intro hok
    exact init_of_inited s.init.2 (hsucc (hiff.1 hok))

/-- C10: on an initialised adapter, under every control strategy, `write()`
first settles the buffer `newJntPosition` from the state before the call (under
`JOINT_POSITION` entry `j < n_joints_` becomes the position target, under
`JOINT_VELOCITY` it becomes velocity target times `dt`, every other entry and
every entry under another strategy keeps the old buffer content) and then
pushes that buffer: afterwards the commanded vector of the bridge equals the
buffer in all 14 entries.  What the handler held as commanded vector before is
replaced and has no influence on the result, while its measured vector and
bootstrap flag are not touched.  On an adapter that is not initialised
`write()` changes nothing. -/
theorem C10_write_pushes_newJntPosition (enforceLimits : β → YumiHW β → YumiHW β)
    (mul : β → β → β) (toFloat : β → α) (s : YumiHWRapid α β) (period : β) :
    (s.isInited = true →
        (∀ j : Fin N_YUMI_JOINTS,
          (YumiHWRapid.write enforceLimits mul toFloat s period).commanded j =
            (YumiHWRapid.write enforceLimits mul toFloat s period).newJntPosition j) ∧
        ((enforceLimits period s.toYumiHW).getControlStrategy = ControlStrategy.JOINT_POSITION →
          ∀ j : Fin N_YUMI_JOINTS,
            (YumiHWRapid.write enforceLimits mul toFloat s period).newJntPosition j =
              if j.val < (enforceLimits period s.toYumiHW).n_joints_ then
                toFloat ((enforceLimits period s.toYumiHW).joint_position_command_ j.val)
              else s.newJntPosition j) ∧
        ((enforceLimits period s.toYumiHW).getControlStrategy = ControlStrategy.JOINT_VELOCITY →
          ∀ j : Fin N_YUMI_JOINTS,
            (YumiHWRapid.write enforceLimits mul toFloat s period).newJntPosition j =
              if j.val < (enforceLimits period s.toYumiHW).n_joints_ then
                toFloat (mul ((enforceLimits period s.toYumiHW).joint_velocity_command_ j.val)
                  period)
              else s.newJntPosition j) ∧
        ((enforceLimits period s.toYumiHW).getControlStrategy ≠ ControlStrategy.JOINT_POSITION →
          (enforceLimits period s.toYumiHW).getControlStrategy ≠ ControlStrategy.JOINT_VELOCITY →
          (YumiHWRapid.write enforceLimits mul toFloat s period).newJntPosition =
            s.newJntPosition) ∧
        (∀ held : JointArray α,
          (YumiHWRapid.write enforceLimits mul toFloat
            { s with robot_interface := s.robot_interface.setJointTargets held } period).commanded =
            (YumiHWRapid.write enforceLimits mul toFloat s period).commanded) ∧
        (YumiHWRapid.write enforceLimits mul toFloat s period).robot_interface.js_handler.joint_positions
          = s.robot_interface.js_handler.joint_positions ∧
        (YumiHWRapid.write enforceLimits mul toFloat s period).robot_interface.js_handler.first_iteration
          = s.robot_interface.js_handler.first_iteration) ∧
      (s.isInited = false → YumiHWRapid.write enforceLimits mul toFloat s period = s) := by
  refine ⟨fun hi => ⟨?_, ?_, ?_, ?_, ?_, ?_, ?_⟩,
    fun hi => write_not_inited enforceLimits mul toFloat s period hi⟩
  · intro j
    rw [write_commanded enforceLimits mul toFloat s period hi]
  · intro hstrat j
    rw [write_newJntPosition enforceLimits mul toFloat s period hi, hstrat]
    exact fillLoop_apply _ _ _ j
  · intro hstrat j
    rw [write_newJntPosition enforceLimits mul toFloat s period hi, hstrat]
    exact fillLoop_apply _ _ _ j
  · intro hpos hvel
    rw [write_newJntPosition enforceLimits mul toFloat s period hi]
    cases hc : (enforceLimits period s.toYumiHW).getControlStrategy with
    | JOINT_POSITION => exact absurd hc hpos
    | JOINT_VELOCITY => exact absurd hc hvel
    | JOINT_EFFORT => rfl
  · intro held
    have hheld := write_commanded enforceLimits mul toFloat
      { s with robot_interface := s.robot_interface.setJointTargets held } period hi
    have hbuf := write_newJntPosition enforceLimits mul toFloat
      { s with robot_interface := s.robot_interface.setJointTargets held } period hi
    rw [hheld, hbuf, write_commanded enforceLimits mul toFloat s period hi,
      write_newJntPosition enforceLimits mul toFloat s period hi]
  · simp [YumiHWRapid.write, hi, YumiRapidInterface.setJointTargets,
      YumiJointStateHandler.setJointCommands]
  · simp [YumiHWRapid.write, hi, YumiRapidInterface.setJointTargets,
      YumiJointStateHandler.setJointCommands]

end AdapterClaims

end Yumi
